import Mathlib

/-!
Verification of the patchimport cell magic (src/patchimport.py).

The development shallow-embeds the Python module: pure string manipulation
(the nested splicer `patcher`, the line splitting, the preview rendering)
becomes executable Lean functions over `String`/`List String`; the stateful
module machinery (`sys.modules`, module objects and their namespaces) becomes
explicit state passing over `PyState`; fallible Python code (IndexError,
AttributeError, SystemExit, compile or exec failures) returns `Except PyErr`.
Compilation and execution of arbitrary Python source cannot be embedded, so
the composite `compile` + `exec` step is a parameter `execSrc`; likewise the
read-only loader (`util.find_spec` + `spec.loader.get_source`, the `package`
argument being always `None` at the call site) is a parameter `getSource`.
-/

/-- Python exception conditions that the embedded code can raise. -/
inductive PyErr where
  | indexError : PyErr
  | attributeError : PyErr
  | systemExit : PyErr
  | importError : PyErr
  | exn : String → PyErr
deriving DecidableEq

/-- Association-list lookup, modelling Python dict lookup keyed on the left
component; first binding wins, matching the cons-on-update discipline used
below for `sys.modules` and the object heap. -/
def lookupA {α β : Type} [DecidableEq α] (k : α) : List (α × β) → Option β
  | [] => none
  | (k', v) :: rest => if k = k' then some v else lookupA k rest

/-- Characters at which Python `str.splitlines` breaks a line: `\n`, `\r`
(with `\r\n` counting as a single break), vertical tab, form feed, the file,
group and record separators, NEL, LINE SEPARATOR and PARAGRAPH SEPARATOR. -/
def isPyLineBreak (c : Char) : Bool :=
  c == '\n' || c == '\r' || c == '\x0b' || c == '\x0c' ||
  c == '\x1c' || c == '\x1d' || c == '\x1e' || c == '\u0085' ||
  c == '\u2028' || c == '\u2029'

/-- Worker for `pySplitlines`: walks the character list accumulating the
current line (reversed); a trailing break produces no extra empty line,
exactly as in Python. -/
def slGo : List Char → List Char → List String
  | [], cur => if cur = [] then [] else [String.mk cur.reverse]
  | [c], cur =>
    if isPyLineBreak c then String.mk cur.reverse :: slGo [] []
    else slGo [] (c :: cur)
  | c1 :: c2 :: rest, cur =>
    if c1 = '\r' ∧ c2 = '\n' then String.mk cur.reverse :: slGo rest []
    else if isPyLineBreak c1 then String.mk cur.reverse :: slGo (c2 :: rest) []
    else slGo (c2 :: rest) (c1 :: cur)

/-- Python `str.splitlines()`: split at line boundaries, boundary characters
removed, no trailing empty line for a trailing boundary, empty string gives
the empty list. -/
def pySplitlines (s : String) : List String :=
  slGo s.data []

/-- Python `"\n".join(pieces)`. -/
def joinNl : List String → String
  | [] => ""
  | [x] => x
  | x :: xs => x ++ "\n" ++ joinNl xs

/-- Python list indexing `xs[i]` for `int` index `i`: negative indices count
from the end; an index out of range raises IndexError. -/
def pyIdx (xs : List String) (i : Int) : Except PyErr String :=
  let j := if i < 0 then (xs.length : Int) + i else i
  if j < 0 then Except.error PyErr.indexError
  else
    match xs.get? j.toNat with
    | some v => Except.ok v
    | none => Except.error PyErr.indexError

/-- Python `range(a, b)` over machine integers, as the list of its elements. -/
def intRange (a b : Int) : List Int :=
  (List.range (b - a).toNat).map (fun k => a + (k : Int))

/-- Python format `f"{n:3}"`: decimal rendering right-aligned to width 3. -/
def fmt3 (n : Int) : String :=
  let s := toString n
  if s.length < 3 then String.mk (List.replicate (3 - s.length) ' ') ++ s else s

/-- One preview segment of `patcher`: the list comprehension
`[f"{i+1:3}MARK{xs[i]}" for i in range(a, b)]`, where the raw indexing can
raise IndexError before any preview line is printed. -/
def previewSeg (xs : List String) (mark : String) (a b : Int) :
    Except PyErr (List String) :=
  (intRange a b).mapM (fun i =>
    match pyIdx xs i with
    | Except.ok l => Except.ok (fmt3 (i + 1) ++ mark ++ l)
    | Except.error e => Except.error e)

/-- The spliced line list built inside `patcher`:
`[*(lines[:start_line]), *patch_lines, *(lines[end_line:])]`. -/
def spliceLines (source : String) (start_line end_line : Nat) (patch : String) :
    List String :=
  (pySplitlines source).take start_line ++ pySplitlines patch ++
    (pySplitlines source).drop end_line

/-- The `preview_lines` computation of `patcher`: three context lines before
the edit, the inserted lines marked `+`, then either three context lines from
the new text (when at least as much was inserted as deleted) or the deleted
lines marked `-` followed by three context lines from the original text. -/
def previewLines (lines new_lines : List String)
    (start_line end_line modified_end : Nat) : Except PyErr (List String) :=
  match previewSeg new_lines " " ((start_line : Int) - 3) (start_line : Int) with
  | Except.error e => Except.error e
  | Except.ok p1 =>
    match previewSeg new_lines "+" (start_line : Int) (modified_end : Int) with
    | Except.error e => Except.error e
    | Except.ok p2 =>
      if end_line ≤ modified_end then
        match previewSeg new_lines " " (modified_end : Int) ((modified_end : Int) + 3) with
        | Except.error e => Except.error e
        | Except.ok p3 => Except.ok (p1 ++ p2 ++ p3)
      else
        match previewSeg lines "-" (modified_end : Int) (end_line : Int) with
        | Except.error e => Except.error e
        | Except.ok p3a =>
          match previewSeg lines " " (end_line : Int) ((end_line : Int) + 3) with
          | Except.error e => Except.error e
          | Except.ok p3b => Except.ok (p1 ++ p2 ++ p3a ++ p3b)

/-- The re-import reminder printed by `patcher`; `module` is captured from the
enclosing `patchimport` call in the source. -/
def reminderMsg (module : String) : String :=
  "REMEMBER TO DO `import " ++ module ++ "` OR `from " ++ module ++
    " import ...` AFTER THIS MAGIC CALL!"

/-- The nested `patcher(source, start_line, end_line, patch)` of
`patchimport` (the Splicer): splits source and patch into lines, splices
`lines[:start_line] + patch_lines + lines[end_line:]`, rejoins with `"\n"`,
builds the numbered preview, prints the reminder, the applied-range message
and the preview, and returns the new source. The returned pair is
(new source, printed lines, one list entry per `print` call); an IndexError
raised while building the preview propagates and nothing is printed. -/
def patcher (source : String) (start_line end_line : Nat) (patch : String)
    (module : String) : Except PyErr (String × List String) :=
  match previewLines (pySplitlines source)
      (spliceLines source start_line end_line patch)
      start_line end_line (start_line + (pySplitlines patch).length) with
  | Except.error e => Except.error e
  | Except.ok preview =>
    Except.ok (joinNl (spliceLines source start_line end_line patch),
      [reminderMsg module,
       "Patch applied from line " ++ toString (start_line + 1) ++ " to " ++
         toString (end_line + 1) ++ ":\n",
       joinNl preview])

/-- The attribute namespace of a live Python module object
(`module.__dict__`), abstracted to attribute-name/value pairs. -/
abbrev Namespace := List (String × String)

/-- Process-wide interpreter state visible to `modify_and_import`: the object
heap mapping references to module namespaces, a fresh-reference counter, and
`sys.modules` mapping module names to references. -/
structure PyState where
  heap : List (Nat × Namespace)
  nextRef : Nat
  modules : List (String × Nat)
deriving DecidableEq

/-- `modify_and_import(module_name, package, modification_func)` from the
source: find the spec and pristine source (`getSource`, read-only, the
`package` context absorbed since the caller always passes `None`), apply the
modification function, compile and execute the result into a brand-new module
object (`execSrc`, the deterministic composite of `compile` and `exec`), and
only on success publish the new object in `sys.modules`. A failure in any
step propagates and the state is returned untouched; the fresh module object
abandoned by a failed compile or exec is unreachable and therefore not
modelled as allocated. -/
def modify_and_import (getSource : String → Option String)
    (execSrc : String → Except PyErr Namespace)
    (module_name : String)
    (modification_func : String → Except PyErr String)
    (st : PyState) : Except PyErr Nat × PyState :=
  match getSource module_name with
  | none => (Except.error PyErr.importError, st)
  | some source =>
    match modification_func source with
    | Except.error e => (Except.error e, st)
    | Except.ok new_source =>
      match execSrc new_source with
      | Except.error e => (Except.error e, st)
      | Except.ok ns =>
        (Except.ok st.nextRef,
         ⟨(st.nextRef, ns) :: st.heap, st.nextRef + 1,
          (module_name, st.nextRef) :: st.modules⟩)

/-- Modelled from the spec: the unpatch operation is absent from
src/patchimport.py (the test suite imports `unpatchimport` but no such
function is defined there); spec section 4.3 specifies it as identical to
install but with `source_transform` = identity, restoring the registry entry
to an execution of the pristine snapshot. -/
def unpatchimport (getSource : String → Option String)
    (execSrc : String → Except PyErr Namespace)
    (module_name : String) (st : PyState) : Except PyErr Nat × PyState :=
  modify_and_import getSource execSrc module_name (fun s => Except.ok s) st

/-- The `PatchArgs` named tuple of the source. -/
structure PatchArgs where
  module : String
  start_line : Int
  end_line : Option Int
deriving DecidableEq

/-- Dynamic Python values, as far as `parse_args` manipulates them. -/
inductive PyVal where
  | vstr : String → PyVal
  | vint : Int → PyVal
  | vnone : PyVal
  | vtuple : List PyVal → PyVal
  | vnamespace : List (String × PyVal) → PyVal

/-- Python attribute read `obj.name`: an argparse `Namespace` exposes its
parsed arguments as attributes; a tuple (or any other of these values) has no
such data attributes, so the read raises AttributeError. -/
def pyGetAttr : PyVal → String → Except PyErr PyVal
  | PyVal.vnamespace fields, name =>
    match lookupA name fields with
    | some v => Except.ok v
    | none => Except.error PyErr.attributeError
  | _, _ => Except.error PyErr.attributeError

/-- Worker for `shlexSplit`: whitespace-separated fields, empty fields
dropped, current token accumulated reversed. -/
def tokGo : List Char → List Char → List String
  | [], cur => if cur = [] then [] else [String.mk cur.reverse]
  | c :: rest, cur =>
    if c == ' ' || c == '\t' || c == '\n' then
      if cur = [] then tokGo rest []
      else String.mk cur.reverse :: tokGo rest []
    else tokGo rest (c :: cur)

/-- `shlex.split(line)` restricted to unquoted tokens: whitespace-separated
fields. Module names and line numbers contain no quote or escape characters,
on which this agrees with shlex. -/
def shlexSplit (line : String) : List String :=
  tokGo line.data []

/-- Worker for `pyInt`: a run of decimal digits, rejecting any other
character. -/
def digitsGo : List Char → Nat → Option Nat
  | [], acc => some acc
  | c :: rest, acc =>
    if c.isDigit then digitsGo rest (acc * 10 + (c.toNat - 48)) else none

/-- Python `int(s)` as argparse applies it to a token: an optional sign
followed by at least one decimal digit; anything else raises ValueError,
reported here as `none`. (Python additionally strips surrounding whitespace
and allows underscores between digits; header tokens have neither.) -/
def pyInt (s : String) : Option Int :=
  match s.data with
  | [] => none
  | '-' :: rest =>
    if rest = [] then none else (digitsGo rest 0).map (fun n => -(n : Int))
  | '+' :: rest =>
    if rest = [] then none else (digitsGo rest 0).map (fun n => (n : Int))
  | _ => (digitsGo s.data 0).map (fun n => (n : Int))

/-- `parser.parse_known_args(tokens)` for the parser built in `parse_args`:
two required positionals (MODULE, then START_LINE converted by `int`), one
optional positional (END_LINE converted by `int`), and any remaining tokens
collected unparsed instead of rejected. Missing required arguments or a
failed `int` conversion make argparse print its usage text and raise
SystemExit. The successful result is the documented two-item tuple of the
populated namespace and the leftover token list. -/
def parse_known_args (toks : List String) : Except PyErr PyVal :=
  match toks with
  | m :: s :: rest =>
    match pyInt s with
    | none => Except.error PyErr.systemExit
    | some sv =>
      match rest with
      | [] =>
        Except.ok (PyVal.vtuple
          [PyVal.vnamespace
            [("module", PyVal.vstr m), ("start_line", PyVal.vint sv),
             ("end_line", PyVal.vnone)],
           PyVal.vtuple []])
      | e :: extras =>
        match pyInt e with
        | none => Except.error PyErr.systemExit
        | some ev =>
          Except.ok (PyVal.vtuple
            [PyVal.vnamespace
              [("module", PyVal.vstr m), ("start_line", PyVal.vint sv),
               ("end_line", PyVal.vint ev)],
             PyVal.vtuple (extras.map PyVal.vstr)])
  | _ => Except.error PyErr.systemExit

/-- `parse_args(line)` from the source: tokenizes the line, calls
`parse_known_args`, and then reads `args.module`, `args.start_line` and
`args.end_line` directly on `args` — which is the tuple returned by
`parse_known_args`, not the namespace inside it, so each read is an attribute
access on a tuple. -/
def parse_args (line : String) : Except PyErr PatchArgs :=
  match parse_known_args (shlexSplit line) with
  | Except.error e => Except.error e
  | Except.ok args =>
    match pyGetAttr args "module", pyGetAttr args "start_line",
        pyGetAttr args "end_line" with
    | Except.ok (PyVal.vstr m), Except.ok (PyVal.vint s), Except.ok PyVal.vnone =>
      Except.ok ⟨m, s, none⟩
    | Except.ok (PyVal.vstr m), Except.ok (PyVal.vint s), Except.ok (PyVal.vint e) =>
      Except.ok ⟨m, s, some e⟩
    | _, _, _ => Except.error PyErr.attributeError

/-- The tail of `patchimport` once arguments are validated: partially apply
`patcher` with the 0-based indices `start_line - 1` and `end_line - 1` and the
cell body, and hand it to `modify_and_import`. The first component collects
the lines printed by `patcher` (nothing is printed when the source lookup or
the preview fails; everything is already printed when compile or exec fails
afterwards). -/
def patchimportRun (getSource : String → Option String)
    (execSrc : String → Except PyErr Namespace)
    (module : String) (start_line end_line : Int) (cell : String)
    (st : PyState) : List String × Except PyErr Unit × PyState :=
  let mf : String → Except PyErr String := fun src =>
    match patcher src (start_line - 1).toNat (end_line - 1).toNat cell module with
    | Except.ok p => Except.ok p.1
    | Except.error e => Except.error e
  let out : List String :=
    match getSource module with
    | none => []
    | some src =>
      match patcher src (start_line - 1).toNat (end_line - 1).toNat cell module with
      | Except.ok p => p.2
      | Except.error _ => []
  match modify_and_import getSource execSrc module mf st with
  | (Except.ok _, st') => (out, Except.ok (), st')
  | (Except.error e, st') => (out, Except.error e, st')

/-- The argument-validation block of `patchimport` and everything after it,
taking the already-parsed header values: `start_line < 1` prints its
diagnostic and returns; a present `end_line ≤ start_line` prints its
diagnostic and returns; an absent `end_line` defaults to `start_line`; then
the patch runs. -/
def patchimportChecked (getSource : String → Option String)
    (execSrc : String → Except PyErr Namespace)
    (module : String) (start_line : Int) (end_line : Option Int)
    (cell : String) (st : PyState) : List String × Except PyErr Unit × PyState :=
  if start_line < 1 then
    (["Error: start_line must be at least 1"], Except.ok (), st)
  else
    match end_line with
    | some e =>
      if e ≤ start_line then
        (["Error: end_line must be greater than start_line"], Except.ok (), st)
      else patchimportRun getSource execSrc module start_line e cell st
    | none => patchimportRun getSource execSrc module start_line start_line cell st

/-- The cell magic `patchimport(line, cell)` end to end: parse the header
line, swallow only SystemExit from the parser (returning silently), propagate
any other exception, then validate and patch. -/
def patchimport (getSource : String → Option String)
    (execSrc : String → Except PyErr Namespace)
    (line cell : String) (st : PyState) :
    List String × Except PyErr Unit × PyState :=
  match parse_args line with
  | Except.error PyErr.systemExit => ([], Except.ok (), st)
  | Except.error e => ([], Except.error e, st)
  | Except.ok args =>
    patchimportChecked getSource execSrc args.module args.start_line
      args.end_line cell st

/-! ## Helper lemmas -/

theorem lookupA_lt_of_wf {β : Type} (h : List (Nat × β)) (n r : Nat) (v : β)
    (hwf : ∀ p ∈ h, p.1 < n) (hr : lookupA r h = some v) : r < n := by
  induction h with
  | nil => simp [lookupA] at hr
  | cons p rest ih =>
    rcases p with ⟨k, w⟩
    by_cases hk : r = k
    · subst hk
      exact hwf (r, w) (by simp)
    · simp only [lookupA, if_neg hk] at hr
      exact ih (fun q hq => hwf q (List.mem_cons_of_mem _ hq)) hr

theorem getLast?_append_right {α : Type} (a b : List α) (hb : b ≠ []) :
    (a ++ b).getLast? = b.getLast? := by
  induction a with
  | nil => rfl
  | cons x xs ih =>
    have hne : xs ++ b ≠ [] := by
      intro h0
      exact hb (List.append_eq_nil.mp h0).2
    cases hab : xs ++ b with
    | nil => exact absurd hab hne
    | cons z zs =>
      rw [List.cons_append, hab, List.getLast?_cons_cons, ← hab, ih]

/-! ## C3 through C6: the Executor / Import Interposer -/

/-- Claim C3: if compilation of the transformed source fails or an exception
is raised while executing the compiled code into the fresh module namespace,
`modify_and_import` propagates the exception and the module registry is left
exactly as it was before the call: either the whole new module replaces the
old one, or nothing changes. -/
theorem C3_executor_atomicity (gs : String → Option String)
    (ex : String → Except PyErr Namespace) (name : String)
    (mf : String → Except PyErr String) (st : PyState) :
    (∀ e, (modify_and_import gs ex name mf st).1 = Except.error e →
      (modify_and_import gs ex name mf st).2 = st) ∧
    (∀ r, (modify_and_import gs ex name mf st).1 = Except.ok r →
      r = st.nextRef ∧
      (modify_and_import gs ex name mf st).2.modules = (name, r) :: st.modules ∧
      ∃ ns, (modify_and_import gs ex name mf st).2.heap = (r, ns) :: st.heap) := by
  cases hg : gs name with
  | none =>
    have hEq : modify_and_import gs ex name mf st
        = (Except.error PyErr.importError, st) := by
      simp [modify_and_import, hg]
    simp [hEq]
  | some src =>
    cases hm : mf src with
    | error e =>
      have hEq : modify_and_import gs ex name mf st = (Except.error e, st) := by
        simp [modify_and_import, hg, hm]
      simp [hEq]
    | ok nsrc =>
      cases hx : ex nsrc with
      | error e2 =>
        have hEq : modify_and_import gs ex name mf st = (Except.error e2, st) := by
          simp [modify_and_import, hg, hm, hx]
        simp [hEq]
      | ok ns =>
        have hEq : modify_and_import gs ex name mf st
            = (Except.ok st.nextRef,
               ⟨(st.nextRef, ns) :: st.heap, st.nextRef + 1,
                (name, st.nextRef) :: st.modules⟩) := by
          simp [modify_and_import, hg, hm, hx]
        refine ⟨?_, ?_⟩
        · intro e har
          rw [hEq] at har
          simp at har
        · intro r har
          rw [hEq] at har
          simp only [Except.ok.injEq] at har
          subst har
          exact ⟨rfl, by rw [hEq], ns, by rw [hEq]⟩

/-- Witness for C3: a failing exec leaves the state untouched. -/
theorem C3_executor_atomicity_witness :
    (modify_and_import (fun _ => some "SRC")
      (fun _ => Except.error (PyErr.exn "boom")) "m" (fun s => Except.ok s)
      ⟨[], 0, []⟩).2 = ⟨[], 0, []⟩ :=
  (C3_executor_atomicity (fun _ => some "SRC")
      (fun _ => Except.error (PyErr.exn "boom")) "m" (fun s => Except.ok s)
      ⟨[], 0, []⟩).1 (PyErr.exn "boom") rfl

/-- Claim C4: a module object obtained from the registry before a patch call
is unaffected by that call and keeps its pre-patch attribute values
afterward: the patch creates a brand-new module object and executes the
patched code only into that new namespace, so only future lookups by name
observe the new object. The well-formedness hypothesis says every allocated
reference is below the fresh-reference counter. -/
theorem C4_prior_module_object_unaffected (gs : String → Option String)
    (ex : String → Except PyErr Namespace) (name : String)
    (mf : String → Except PyErr String) (st : PyState) (r : Nat) (ns : Namespace)
    (hwf : ∀ p ∈ st.heap, p.1 < st.nextRef)
    (hr : lookupA r st.heap = some ns) :
    lookupA r (modify_and_import gs ex name mf st).2.heap = some ns := by
  have hlt : r < st.nextRef := lookupA_lt_of_wf st.heap st.nextRef r ns hwf hr
  cases hg : gs name with
  | none => simpa [modify_and_import, hg] using hr
  | some src =>
    cases hm : mf src with
    | error e => simpa [modify_and_import, hg, hm] using hr
    | ok nsrc =>
      cases he : ex nsrc with
      | error e2 => simpa [modify_and_import, hg, hm, he] using hr
      | ok ns2 =>
        simpa [modify_and_import, hg, hm, he, lookupA, Nat.ne_of_lt hlt] using hr

/-- Witness for C4: patching `m` leaves the previously allocated module
object 0 with its original attributes. -/
theorem C4_prior_module_object_unaffected_witness :
    lookupA 0 (modify_and_import (fun _ => some "SRC")
      (fun _ => Except.ok [("b", "2")]) "m" (fun s => Except.ok s)
      ⟨[(0, [("a", "1")])], 1, [("m", 0)]⟩).2.heap = some [("a", "1")] :=
  C4_prior_module_object_unaffected (fun _ => some "SRC")
    (fun _ => Except.ok [("b", "2")]) "m" (fun s => Except.ok s)
    ⟨[(0, [("a", "1")])], 1, [("m", 0)]⟩ 0 [("a", "1")]
    (by decide) (by decide)

/-- Claim C5: every patch call re-fetches the pristine source from the
backing loader and applies its edit to that original text, never to a
previously patched version: after an arbitrary first patch `f1`, a second
patch `f2` on the same module produces a module whose namespace is the
execution of `f2` applied to the pristine source, independent of `f1`. -/
theorem C5_patches_start_from_pristine_source (gs : String → Option String)
    (ex : String → Except PyErr Namespace) (name : String)
    (f1 f2 : String → Except PyErr String) (st : PyState)
    (src s2 : String) (ns2 : Namespace)
    (hg : gs name = some src) (h2 : f2 src = Except.ok s2)
    (he : ex s2 = Except.ok ns2) :
    (modify_and_import gs ex name f2 (modify_and_import gs ex name f1 st).2).1
      = Except.ok (modify_and_import gs ex name f1 st).2.nextRef ∧
    lookupA name (modify_and_import gs ex name f2
        (modify_and_import gs ex name f1 st).2).2.modules
      = some (modify_and_import gs ex name f1 st).2.nextRef ∧
    lookupA (modify_and_import gs ex name f1 st).2.nextRef
        (modify_and_import gs ex name f2
          (modify_and_import gs ex name f1 st).2).2.heap
      = some ns2 := by
  generalize (modify_and_import gs ex name f1 st).2 = st1
  simp [modify_and_import, hg, h2, he, lookupA]

/-- Witness for C5: two sequential different patches; the second reflects
only its own edit of the pristine source `"orig"`. -/
theorem C5_patches_start_from_pristine_source_witness :
    (modify_and_import (fun _ => some "orig") (fun s => Except.ok [("src", s)])
        "m" (fun s => Except.ok (s ++ "+2"))
        (modify_and_import (fun _ => some "orig")
          (fun s => Except.ok [("src", s)]) "m" (fun _ => Except.ok "v1")
          ⟨[], 0, []⟩).2).1
      = Except.ok (modify_and_import (fun _ => some "orig")
          (fun s => Except.ok [("src", s)]) "m" (fun _ => Except.ok "v1")
          ⟨[], 0, []⟩).2.nextRef ∧
    lookupA "m" (modify_and_import (fun _ => some "orig")
        (fun s => Except.ok [("src", s)]) "m" (fun s => Except.ok (s ++ "+2"))
        (modify_and_import (fun _ => some "orig")
          (fun s => Except.ok [("src", s)]) "m" (fun _ => Except.ok "v1")
          ⟨[], 0, []⟩).2).2.modules
      = some (modify_and_import (fun _ => some "orig")
          (fun s => Except.ok [("src", s)]) "m" (fun _ => Except.ok "v1")
          ⟨[], 0, []⟩).2.nextRef ∧
    lookupA (modify_and_import (fun _ => some "orig")
        (fun s => Except.ok [("src", s)]) "m" (fun _ => Except.ok "v1")
        ⟨[], 0, []⟩).2.nextRef
        (modify_and_import (fun _ => some "orig")
          (fun s => Except.ok [("src", s)]) "m" (fun s => Except.ok (s ++ "+2"))
          (modify_and_import (fun _ => some "orig")
            (fun s => Except.ok [("src", s)]) "m" (fun _ => Except.ok "v1")
            ⟨[], 0, []⟩).2).2.heap
      = some [("src", "orig+2")] :=
  C5_patches_start_from_pristine_source (fun _ => some "orig")
    (fun s => Except.ok [("src", s)]) "m" (fun _ => Except.ok "v1")
    (fun s => Except.ok (s ++ "+2")) ⟨[], 0, []⟩ "orig" "orig+2"
    [("src", "orig+2")] rfl rfl rfl

/-- Claim C6: after any patch to a module, invoking the unpatch operation
(install with the identity source transform) on that module name and then
looking the module up by name yields a module whose attribute values are
identical to those of the never-patched original — namely the namespace
`ns0` obtained by executing the pristine source. -/
theorem C6_unpatch_restores_original (gs : String → Option String)
    (ex : String → Except PyErr Namespace) (name : String)
    (f : String → Except PyErr String) (st : PyState)
    (src : String) (ns0 : Namespace)
    (hg : gs name = some src) (he : ex src = Except.ok ns0) :
    ∃ r, lookupA name (unpatchimport gs ex name
        (modify_and_import gs ex name f st).2).2.modules = some r ∧
      lookupA r (unpatchimport gs ex name
        (modify_and_import gs ex name f st).2).2.heap = some ns0 := by
  generalize (modify_and_import gs ex name f st).2 = st1
  refine ⟨st1.nextRef, ?_, ?_⟩ <;>
    simp [unpatchimport, modify_and_import, hg, he, lookupA]

/-- Witness for C6: patch then unpatch; the name resolves to a module whose
attributes are those of the pristine execution. -/
theorem C6_unpatch_restores_original_witness :
    ∃ r, lookupA "m" (unpatchimport (fun _ => some "orig")
        (fun s => Except.ok [("src", s)]) "m"
        (modify_and_import (fun _ => some "orig")
          (fun s => Except.ok [("src", s)]) "m"
          (fun _ => Except.ok "patched") ⟨[], 0, []⟩).2).2.modules = some r ∧
      lookupA r (unpatchimport (fun _ => some "orig")
        (fun s => Except.ok [("src", s)]) "m"
        (modify_and_import (fun _ => some "orig")
          (fun s => Except.ok [("src", s)]) "m"
          (fun _ => Except.ok "patched") ⟨[], 0, []⟩).2).2.heap
        = some [("src", "orig")] :=
  C6_unpatch_restores_original (fun _ => some "orig")
    (fun s => Except.ok [("src", s)]) "m" (fun _ => Except.ok "patched")
    ⟨[], 0, []⟩ "orig" [("src", "orig")] rfl rfl

/-! ## C1, C2, C7, C8, C9: evaluations exhibiting divergences from the code -/

/-- Claim C1 (failing-input evaluation): the claim says that for every
in-range pair of 0-based indices the Splicer returns the splice of source and
patch lines. At source `"a\nb"` (2 lines), patch `"X"`,
`start_line = end_line = 2` — in range, since 0 ≤ 2 ≤ 2 ≤ 2 — the splice
would be `"a\nb\nX"`, but the preview comprehension reads `new_lines[3]` past
the end of the 3-element result list, so `patcher` raises IndexError and
returns nothing. -/
theorem C1_splicer_crashes_in_range :
    patcher "a\nb" 2 2 "X" "m" = Except.error PyErr.indexError := rfl

/-- Claim C2 (evaluation of the two spec examples under the 1-based
convention): the insertion example succeeds and registers a module built from
`"a\nX\nY\nb\nc\nd"`, exactly as claimed; but the replacement example —
source lines a b c d, body X, `S = 2`, `E = 4` — raises IndexError while
building the preview (it reads `lines[4]` of the 4-line original), prints
nothing, and registers nothing, instead of producing `"a\nX\nd"`. -/
theorem C2_one_based_spec_examples :
    ((patchimportChecked (fun n => if n = "m" then some "a\nb\nc\nd" else none)
        (fun s => Except.ok [("src", s)]) "m" 2 none "X\nY"
        ⟨[], 0, []⟩).2.1 = Except.ok () ∧
      lookupA "m" (patchimportChecked
        (fun n => if n = "m" then some "a\nb\nc\nd" else none)
        (fun s => Except.ok [("src", s)]) "m" 2 none "X\nY"
        ⟨[], 0, []⟩).2.2.modules = some 0 ∧
      lookupA 0 (patchimportChecked
        (fun n => if n = "m" then some "a\nb\nc\nd" else none)
        (fun s => Except.ok [("src", s)]) "m" 2 none "X\nY"
        ⟨[], 0, []⟩).2.2.heap = some [("src", "a\nX\nY\nb\nc\nd")]) ∧
    patchimportChecked (fun n => if n = "m" then some "a\nb\nc\nd" else none)
        (fun s => Except.ok [("src", s)]) "m" 2 (some 4) "X" ⟨[], 0, []⟩
      = ([], Except.error PyErr.indexError, ⟨[], 0, []⟩) :=
  ⟨⟨rfl, rfl, rfl⟩, rfl⟩

/-- Claim C7 (failing-input evaluation plus the validation block in
isolation): invoking the magic with the header `"dummy_module 0"` does not
print the start-line diagnostic — `parse_args` raises AttributeError before
validation is reached, and the magic propagates it, printing nothing (though
the registry is indeed untouched). The validation block itself, fed parsed
values, does behave as claimed: `start_line = 0` prints
`"Error: start_line must be at least 1"` and leaves the state untouched, and
`start_line = 10, end_line = 5` prints
`"Error: end_line must be greater than start_line"` and leaves the state
untouched. -/
theorem C7_magic_crashes_before_validation :
    patchimport (fun _ => none) (fun _ => Except.ok []) "dummy_module 0"
        "pass" ⟨[], 0, []⟩
      = ([], Except.error PyErr.attributeError, ⟨[], 0, []⟩) ∧
    patchimportChecked (fun _ => none) (fun _ => Except.ok []) "dummy_module"
        0 none "pass" ⟨[], 0, []⟩
      = (["Error: start_line must be at least 1"], Except.ok (), ⟨[], 0, []⟩) ∧
    patchimportChecked (fun _ => none) (fun _ => Except.ok []) "dummy_module"
        10 (some 5) "pass" ⟨[], 0, []⟩
      = (["Error: end_line must be greater than start_line"], Except.ok (),
         ⟨[], 0, []⟩) :=
  ⟨rfl, rfl, rfl⟩

/-- Claim C8 (failing-input evaluation): deleting the only line of source
`"x"` with `start_line = 0`, `end_line = 1` and an empty patch — in range and
with `start_line ≤ end_line` — makes the preview read `new_lines[-3]` of the
empty result list, raising IndexError and preventing the return, so the
Splicer does error and the preview does affect the returned source text. -/
theorem C8_splicer_preview_raises :
    patcher "x" 0 1 "" "m" = Except.error PyErr.indexError := rfl

/-- Claim C9 (failing-input evaluation): for the well-formed headers
`"my_module 10"` and `"another.module 5 15"`, `parse_args` does not return a
`PatchArgs` record; it raises AttributeError, because `parse_known_args`
returns the (namespace, leftover-arguments) tuple and the code reads
`args.module` on that tuple. -/
theorem C9_parse_args_raises :
    parse_args "my_module 10" = Except.error PyErr.attributeError ∧
    parse_args "another.module 5 15" = Except.error PyErr.attributeError :=
  ⟨rfl, rfl⟩

/-! ## C10: line endings and trailing newlines -/

/-- Claim C10 counterexample: the source `"a\nb\nc\nd\n\n"` ends with a
newline character, the Splicer succeeds on it (inserting `"X"` at 0-based
line 1), and the returned text `"a\nX\nb\nc\nd\n"` still ends with a newline
— because `splitlines` turns the doubled trailing newline into an empty final
line which the `"\n"`-join then reproduces as a trailing separator. -/
theorem C10_trailing_newline_counterexample :
    "a\nb\nc\nd\n\n".data.getLast? = some '\n' ∧
    (patcher "a\nb\nc\nd\n\n" 1 1 "X" "m").toOption.map Prod.fst
      = some "a\nX\nb\nc\nd\n" ∧
    "a\nX\nb\nc\nd\n".data.getLast? = some '\n' :=
  ⟨rfl, rfl, rfl⟩
theorem slGo_no_break : ∀ (cs cur : List Char),
    (∀ c ∈ cur, isPyLineBreak c = false) →
    ∀ p ∈ slGo cs cur, ∀ c ∈ p.data, isPyLineBreak c = false := by
  intro cs cur
  induction cs, cur using slGo.induct with
  | case1 =>
    intro _ p hp
    simp [slGo] at hp
  | case2 cur h0 =>
    intro hcur p hp c hc
    rw [slGo, if_neg h0] at hp
    rw [List.mem_singleton] at hp
    subst hp
    exact hcur c (by simpa using hc)
  | case3 ch cur hbrk ih =>
    intro hcur p hp c hc
    have hstep : slGo [ch] cur
        = if isPyLineBreak ch then String.mk cur.reverse :: slGo [] []
          else slGo [] (ch :: cur) := rfl
    rw [hstep, if_pos hbrk] at hp
    rcases List.mem_cons.mp hp with h | h
    · subst h
      exact hcur c (by simpa using hc)
    · exact ih (by simp) p h c hc
  | case4 ch cur hbrk ih =>
    intro hcur p hp c hc
    have hstep : slGo [ch] cur
        = if isPyLineBreak ch then String.mk cur.reverse :: slGo [] []
          else slGo [] (ch :: cur) := rfl
    rw [hstep, if_neg hbrk] at hp
    refine ih ?_ p hp c hc
    intro c2 hc2
    rcases List.mem_cons.mp hc2 with h | h
    · subst h
      exact Bool.eq_false_iff.mpr hbrk
    · exact hcur c2 h
  | case5 c1 c2 rest cur hpair ih =>
    intro hcur p hp c hc
    have hstep : slGo (c1 :: c2 :: rest) cur
        = if c1 = '\r' ∧ c2 = '\n' then String.mk cur.reverse :: slGo rest []
          else if isPyLineBreak c1 then
            String.mk cur.reverse :: slGo (c2 :: rest) []
          else slGo (c2 :: rest) (c1 :: cur) := rfl
    rw [hstep, if_pos hpair] at hp
    rcases List.mem_cons.mp hp with h | h
    · subst h
      exact hcur c (by simpa using hc)
    · exact ih (by simp) p h c hc
  | case6 c1 c2 rest cur hpair hbrk ih =>
    intro hcur p hp c hc
    have hstep : slGo (c1 :: c2 :: rest) cur
        = if c1 = '\r' ∧ c2 = '\n' then String.mk cur.reverse :: slGo rest []
          else if isPyLineBreak c1 then
            String.mk cur.reverse :: slGo (c2 :: rest) []
          else slGo (c2 :: rest) (c1 :: cur) := rfl
    rw [hstep, if_neg hpair, if_pos hbrk] at hp
    rcases List.mem_cons.mp hp with h | h
    · subst h
      exact hcur c (by simpa using hc)
    · exact ih (by simp) p h c hc
  | case7 c1 c2 rest cur hpair hbrk ih =>
    intro hcur p hp c hc
    have hstep : slGo (c1 :: c2 :: rest) cur
        = if c1 = '\r' ∧ c2 = '\n' then String.mk cur.reverse :: slGo rest []
          else if isPyLineBreak c1 then
            String.mk cur.reverse :: slGo (c2 :: rest) []
          else slGo (c2 :: rest) (c1 :: cur) := rfl
    rw [hstep, if_neg hpair, if_neg hbrk] at hp
    refine ih ?_ p hp c hc
    intro c3 hc3
    rcases List.mem_cons.mp hc3 with h | h
    · subst h
      exact Bool.eq_false_iff.mpr hbrk
    · exact hcur c3 h

theorem pySplitlines_no_break (s : String) :
    ∀ p ∈ pySplitlines s, ∀ c ∈ p.data, isPyLineBreak c = false :=
  slGo_no_break s.data [] (by simp)

theorem spliceLines_no_break (source : String) (s e : Nat) (patch : String) :
    ∀ p ∈ spliceLines source s e patch, ∀ c ∈ p.data,
      isPyLineBreak c = false := by
  intro p hp c hc
  rcases List.mem_append.mp hp with h | h
  · rcases List.mem_append.mp h with h2 | h2
    · exact pySplitlines_no_break source p (List.mem_of_mem_take h2) c hc
    · exact pySplitlines_no_break patch p h2 c hc
  · exact pySplitlines_no_break source p (List.mem_of_mem_drop h) c hc

theorem mem_joinNl (l : List String) (c : Char) (hc : c ∈ (joinNl l).data) :
    c = '\n' ∨ ∃ p, p ∈ l ∧ c ∈ p.data := by
  induction l using joinNl.induct with
  | case1 => simp [joinNl] at hc
  | case2 x => exact Or.inr ⟨x, by simp, hc⟩
  | case3 x xs hxs ih =>
    have hdef : joinNl (x :: xs) = x ++ "\n" ++ joinNl xs := by
      cases xs with
      | nil => exact absurd rfl (fun h => hxs h)
      | cons y ys => rfl
    rw [hdef, String.data_append, String.data_append] at hc
    rcases List.mem_append.mp hc with h | h
    · rcases List.mem_append.mp h with h2 | h2
      · exact Or.inr ⟨x, by simp, h2⟩
      · exact Or.inl (by simpa using h2)
    · rcases ih h with h2 | ⟨p, hp, hcp⟩
      · exact Or.inl h2
      · exact Or.inr ⟨p, List.mem_cons_of_mem _ hp, hcp⟩

theorem joinNl_getLast (l : List String) (x : String)
    (hx : l.getLast? = some x) (hne : x ≠ "") :
    (joinNl l).data.getLast? = x.data.getLast? := by
  induction l using joinNl.induct with
  | case1 => simp at hx
  | case2 y =>
    have hyx : y = x := by simpa using hx
    subst hyx
    rfl
  | case3 y ys hys ih =>
    cases ys with
    | nil => exact absurd rfl (fun h => hys h)
    | cons z zs =>
      rw [List.getLast?_cons_cons] at hx
      have h2 := ih hx
      have hxd : x.data ≠ [] := by
        intro h0
        apply hne
        cases x with
        | mk d =>
          simp only at h0
          rw [h0]
      have h3 : (joinNl (z :: zs)).data ≠ [] := by
        intro h0
        rw [h0] at h2
        exact hxd (List.getLast?_eq_none_iff.mp h2.symm)
      have hdef : joinNl (y :: z :: zs) = y ++ "\n" ++ joinNl (z :: zs) := rfl
      rw [hdef, String.data_append, String.data_append,
        getLast?_append_right _ _ h3]
      exact h2

theorem patcher_ok_fst (source : String) (s e : Nat) (patch module : String)
    (pr : String × List String)
    (h : patcher source s e patch module = Except.ok pr) :
    pr.1 = joinNl (spliceLines source s e patch) := by
  revert h
  unfold patcher
  cases previewLines (pySplitlines source) (spliceLines source s e patch) s e
      (s + (pySplitlines patch).length) with
  | error er => intro h; simp at h
  | ok pv =>
    intro h
    simp only [Except.ok.injEq] at h
    rw [← h]

/-- Claim C10, amended: when the Splicer succeeds, every line-break character
occurring in the returned text is exactly `\n` — original `\r\n` or `\r`
endings never survive, since `splitlines` removes all break characters and
the join reinserts only `\n` — and, provided the final spliced line is
nonempty, the returned text does not end with a newline. (The unamended
claim, that a source ending in a newline always yields a result not ending
in a newline, fails when the splice keeps an empty final line, e.g. a source
ending in two consecutive newlines.) -/
theorem C10_line_endings_amended (source : String) (s e : Nat)
    (patch module res : String)
    (hok : (patcher source s e patch module).toOption.map Prod.fst = some res) :
    (∀ c ∈ res.data, isPyLineBreak c = true → c = '\n') ∧
    (∀ last, (spliceLines source s e patch).getLast? = some last → last ≠ "" →
      res.data.getLast? ≠ some '\n') := by
  have hres : res = joinNl (spliceLines source s e patch) := by
    cases hp : patcher source s e patch module with
    | error er => rw [hp] at hok; simp [Except.toOption] at hok
    | ok pr =>
      rw [hp] at hok
      simp only [Except.toOption, Option.map_some'] at hok
      rw [← Option.some.inj hok]
      exact patcher_ok_fst source s e patch module pr hp
  subst hres
  constructor
  · intro c hc hbrk
    rcases mem_joinNl _ c hc with h | ⟨p, hp, hcp⟩
    · exact h
    · rw [spliceLines_no_break source s e patch p hp c hcp] at hbrk
      exact absurd hbrk (by simp)
  · intro last hlast hne
    rw [joinNl_getLast _ last hlast hne]
    intro hcon
    have hmem : last ∈ spliceLines source s e patch :=
      List.mem_of_getLast?_eq_some hlast
    have hlnm : '\n' ∈ last.data := List.mem_of_getLast?_eq_some hcon
    have := spliceLines_no_break source s e patch last hmem '\n' hlnm
    simp [isPyLineBreak] at this

/-- Witness for the amended C10: inserting `"X"` into `"a\nb\nc\nd\ne"`
succeeds, so the result `"a\nX\nb\nc\nd\ne"` has only `\n` breaks, and since
the final spliced line `"e"` is nonempty it also has no trailing newline. -/
theorem C10_line_endings_amended_witness :
    (∀ c ∈ "a\nX\nb\nc\nd\ne".data, isPyLineBreak c = true → c = '\n') ∧
    "a\nX\nb\nc\nd\ne".data.getLast? ≠ some '\n' :=
  ⟨(C10_line_endings_amended "a\nb\nc\nd\ne" 1 1 "X" "m" "a\nX\nb\nc\nd\ne"
      rfl).1,
   (C10_line_endings_amended "a\nb\nc\nd\ne" 1 1 "X" "m" "a\nX\nb\nc\nd\ne"
      rfl).2 "e" rfl (by decide)⟩
